import Mathlib

/-!
Shallow embedding of the filelock-task locking engine (src/FileLock.h,
src/FileLock.cxx) and proofs about its specified behaviour.

Layers modelled, following the source:
  * `AIStatefulTaskLockSingleton` : the in-process ownership claim
    (`m_ref_count`, `m_owner`), with its `try_lock` and the intrusive_ptr
    add_ref/release hooks (src/FileLock.cxx lines 157-196).
  * `AIStatefulTaskNamedMutex` : composes a `FileLockAccess` with an
    intrusive_ptr to the claim; `try_lock`/`is_locked`/`unlock`
    (src/FileLock.h lines 357-422).
  * `FileLockSingleton` : per-path record holding the OS file lock, the
    `FileLockAccess` reference count and the diagnostic `m_lock_file`
    handle, with the intrusive_ptr add_ref/release hooks performing the
    actual OS-lock acquisition/release (src/FileLock.cxx lines 72-155).
  * `FileLock` : the registry (`s_file_lock_map`) operations
    `set_filename` and the destructor (src/FileLock.cxx lines 6-67).
  * The lock task state machines (src/FileLock.cxx lines 213-230 and the
    `task::TaskLock` variant).

Pointers (task identities, pids) are modelled as natural numbers; a C++
`nullptr` owner is `Option.none`.  `ASSERT` is modelled as a fatal error
outcome (its debug-build semantics, which is also how the specification
treats invariant violations).  External effects (the OS `try_lock`
outcome, `fopen`/`fread` results, `getpid`) are supplied by an explicit
environment record, and the OS lock / unlock syscalls performed by an
operation are returned as an explicit event list.
-/

namespace FilelockTask

/-- Identity of an `AIStatefulTask const*` (a non-null task pointer). -/
abbrev TaskId := Nat

/-- A `pid_t` value; the code uses 0 for "unknown". -/
abbrev Pid := Nat

/-- Error outcomes of the engine: a failed `ASSERT` (fatal, debug-build
semantics), a thrown `THROW_ALERTE` I/O error carrying the path, or a
thrown "failed to obtain file lock" alert carrying the path and the pid
read from the lock file when one was readable. -/
inductive LockError where
  | assertFailed : LockError
  | ioError : String → LockError
  | lockUnavailable : String → Option Pid → LockError
deriving DecidableEq, Repr

deriving instance DecidableEq for Except

/-! ### AIStatefulTaskLockSingleton (the in-process ownership claim) -/

/-- `AIStatefulTaskLockSingleton::Data` (src/FileLock.h lines 31-37):
the number of intrusive_ptr references to the claim and the current
owner (`nullptr` = `none` when unowned). -/
structure STLData where
  m_ref_count : Int
  m_owner : Option TaskId
deriving DecidableEq, Repr

/-- The freshly constructed claim: `Data() : m_ref_count(0), m_owner(nullptr)`. -/
def STLData.init : STLData := ⟨0, none⟩

/-- `AIStatefulTaskLockSingleton::is_owner` (src/FileLock.h line 48):
`m_owner == owner` for a non-null candidate owner pointer. -/
def STLData.is_owner (d : STLData) (owner : TaskId) : Bool :=
  d.m_owner = some owner

/-- `intrusive_ptr_add_ref(AIStatefulTaskLockSingleton*)`
(src/FileLock.cxx lines 157-164): increment `m_ref_count`, asserting the
previous count was positive. -/
def STLData.intrusive_ptr_add_ref (d : STLData) : Except LockError STLData :=
  let prev_count := d.m_ref_count
  let d' : STLData := { d with m_ref_count := prev_count + 1 }
  if prev_count > 0 then .ok d' else .error .assertFailed

/-- `intrusive_ptr_release(AIStatefulTaskLockSingleton*)`
(src/FileLock.cxx lines 166-174): decrement `m_ref_count` and clear
`m_owner` when it reaches zero. -/
def STLData.intrusive_ptr_release (d : STLData) : STLData :=
  let d' : STLData := { d with m_ref_count := d.m_ref_count - 1 }
  if d'.m_ref_count = 0 then { d' with m_owner := none } else d'

/-- `AIStatefulTaskLockSingleton::try_lock(owner)` (src/FileLock.cxx
lines 176-196).  Returns whether the returned intrusive_ptr is non-null
(`some ()` models the valid pointer) together with the new claim state.
When not already owned the code sets `m_ref_count = 1` and the owner,
then `res = this` bumps the count to 2 and the code puts it back to 1,
so the single reference is the one held by the returned pointer. -/
def STLData.try_lock (owner : TaskId) (d : STLData) : Option Unit × STLData :=
  let already_owned := d.m_ref_count > 0
  if already_owned then (none, d)
  else
    let d1 : STLData := { m_ref_count := 1, m_owner := some owner }
    let d2 : STLData := { d1 with m_ref_count := d1.m_ref_count + 1 }
    let d3 : STLData := { d2 with m_ref_count := 1 }
    (some (), d3)

/-! ### AIStatefulTaskNamedMutex

The mutex object stores `m_stateful_task_lock_ref`, an intrusive_ptr to
the claim that is non-null exactly while this mutex holds the claim; we
model the pointer by the Bool "is non-null" and thread the shared
`STLData` it points into explicitly. -/

/-- `AIStatefulTaskNamedMutex` (src/FileLock.h lines 357-422), reduced
to its mutable claim reference; the embedded `FileLockAccess` only pins
the `FileLockSingleton` reference count and is not consulted by
`try_lock`/`is_locked`/`unlock`. -/
structure AIStatefulTaskNamedMutex where
  m_stateful_task_lock_ref : Bool
deriving DecidableEq, Repr

/-- A freshly constructed named mutex: the claim reference is null. -/
def AIStatefulTaskNamedMutex.init : AIStatefulTaskNamedMutex := ⟨false⟩

/-- `AIStatefulTaskNamedMutex::is_locked` (src/FileLock.h line 393). -/
def AIStatefulTaskNamedMutex.is_locked (m : AIStatefulTaskNamedMutex) : Bool :=
  m.m_stateful_task_lock_ref

/-- `AIStatefulTaskNamedMutex::try_lock(owner)` (src/FileLock.h lines
384-391): `m_stateful_task_lock_ref = m_file_lock_access.try_lock(owner)`.
The right-hand side runs `AIStatefulTaskLockSingleton::try_lock` on the
current claim state; the assignment then destroys the previously stored
intrusive_ptr, which releases the reference it held.  Returns the Bool
result of `try_lock`, the new mutex and the new claim state. -/
def AIStatefulTaskNamedMutex.try_lock (m : AIStatefulTaskNamedMutex)
    (owner : TaskId) (d : STLData) :
    Bool × AIStatefulTaskNamedMutex × STLData :=
  let res := STLData.try_lock owner d
  let d2 := if m.m_stateful_task_lock_ref then
      STLData.intrusive_ptr_release res.2
    else res.2
  (res.1.isSome, ⟨res.1.isSome⟩, d2)

/-- `AIStatefulTaskNamedMutex::unlock(owner)` (src/FileLock.h lines
395-400): `ASSERT(is_locked() && m_stateful_task_lock_ref->is_owner(owner))`
then `m_stateful_task_lock_ref.reset()`, which releases the reference. -/
def AIStatefulTaskNamedMutex.unlock (m : AIStatefulTaskNamedMutex)
    (owner : TaskId) (d : STLData) :
    Except LockError (AIStatefulTaskNamedMutex × STLData) :=
  if m.is_locked && d.is_owner owner then
    .ok (⟨false⟩, STLData.intrusive_ptr_release d)
  else
    .error .assertFailed

/-! ### FileLockSingleton (the per-path lock record)

`intrusive_ptr_add_ref(FileLockSingleton*)` performs the actual OS-lock
acquisition at the 0→1 transition of the `FileLockAccess` count and
`intrusive_ptr_release(FileLockSingleton*)` the release at 1→0
(src/FileLock.cxx lines 72-155).  The OS calls made are reported as an
explicit event list; the outcomes of the external calls the code makes
(`m_file_lock.try_lock()`, `fopen`, `fread`, `getpid`) are supplied by
an `AcquireEnv`. -/

/-- An OS-level advisory-lock syscall performed by the record. -/
inductive OSEvent where
  | tryLockEv : OSEvent
  | unlockEv : OSEvent
deriving DecidableEq, Repr

/-- Outcomes of the external calls made during a 0→1 acquisition:
the result of the non-blocking `m_file_lock.try_lock()`, whether
`std::fopen(path, "r+b")` succeeds, the result of `fread`-ing the stored
pid (`none` when the read fails), and `getpid()`. -/
structure AcquireEnv where
  try_lock_result : Bool
  fopen_ok : Bool
  fread_pid : Option Pid
  getpid : Pid
deriving DecidableEq, Repr

/-- `FileLockSingleton` state (src/FileLock.h lines 93-187): the
`FileLockAccess` count and the OS lock state (the `Data` guarded by the
per-record mutex), the canonical path, and whether `m_lock_file` holds
an open `FILE*` (null on construction, set while a diagnostic handle is
retained).  The embedded `m_stateful_task_lock_instance` is the
`STLData` modelled above and is threaded separately; the add_ref and
release hooks never touch it. -/
structure FileLockSingleton where
  m_number_of_FileLockAccess_objects : Int
  m_file_lock_held : Bool
  m_canonical_path : String
  m_lock_file : Bool
deriving DecidableEq, Repr

/-- A freshly constructed record for a canonical path: the constructor
(src/FileLock.h lines 120-148) opens the `file_lock` without locking it
and zeroes the access count; `m_lock_file` is null. -/
def FileLockSingleton.mkRecord (path : String) : FileLockSingleton :=
  { m_number_of_FileLockAccess_objects := 0
    m_file_lock_held := false
    m_canonical_path := path
    m_lock_file := false }

/-- Result of an add_ref/release hook: the record afterwards, the OS
lock syscalls performed, and the exception thrown, if any (`ASSERT`
failures are reported the same way). -/
structure HookOutcome where
  state : FileLockSingleton
  events : List OSEvent
  err : Option LockError
deriving DecidableEq, Repr

/-- The `lastpid` computed by the acquisition path: `0` unless the file
was opened and `fread` read one `pid_t` item (src/FileLock.cxx lines
93-99). -/
def AcquireEnv.lastpid (env : AcquireEnv) : Pid :=
  if env.fopen_ok then env.fread_pid.getD 0 else 0

/-- `intrusive_ptr_add_ref(FileLockSingleton*)` (src/FileLock.cxx lines
72-140).  Post-increment of the count; at the 0→1 transition: try the OS
lock, open the backing file, on failure reset the count to 0 and throw
(`ioError` when the lock was obtained but the file did not open,
`lockUnavailable` with the best-effort pid when the lock was not
obtained); on success write our pid and retain the handle in
`m_lock_file` — but only when the pid read differed from ours. -/
def FileLockSingleton.intrusive_ptr_add_ref (env : AcquireEnv)
    (p : FileLockSingleton) : HookOutcome :=
  let count := p.m_number_of_FileLockAccess_objects
  let p1 : FileLockSingleton :=
    { p with m_number_of_FileLockAccess_objects := count + 1 }
  if count = 0 then
    let obtained_lock := env.try_lock_result
    let p2 : FileLockSingleton := { p1 with m_file_lock_held := obtained_lock }
    let lock_file_stream := env.fopen_ok
    let p3 : FileLockSingleton :=
      if !obtained_lock || !lock_file_stream then
        { p2 with m_number_of_FileLockAccess_objects := 0 }
      else p2
    if obtained_lock && !lock_file_stream then
      ⟨p3, [.tryLockEv], some (.ioError p.m_canonical_path)⟩
    else
      let lastpid := env.lastpid
      if !obtained_lock then
        ⟨p3, [.tryLockEv],
          some (.lockUnavailable p.m_canonical_path
            (if lastpid ≠ 0 then some lastpid else none))⟩
      else
        let pid := env.getpid
        let p4 : FileLockSingleton :=
          if lastpid ≠ pid then { p3 with m_lock_file := true } else p3
        ⟨p4, [.tryLockEv], none⟩
  else
    ⟨p1, [], none⟩

/-- `intrusive_ptr_release(FileLockSingleton*)` (src/FileLock.cxx lines
142-155).  `ASSERT(count > 0)`; pre-decrement; at the 1→0 transition:
`m_file_lock.unlock()`, then `ASSERT(m_lock_file)` and close the
diagnostic handle. -/
def FileLockSingleton.intrusive_ptr_release (p : FileLockSingleton) :
    HookOutcome :=
  if !(p.m_number_of_FileLockAccess_objects > 0) then
    ⟨p, [], some .assertFailed⟩
  else
    let count := p.m_number_of_FileLockAccess_objects - 1
    let p1 : FileLockSingleton :=
      { p with m_number_of_FileLockAccess_objects := count }
    if count = 0 then
      let p2 : FileLockSingleton := { p1 with m_file_lock_held := false }
      if p2.m_lock_file then
        ⟨{ p2 with m_lock_file := false }, [.unlockEv], none⟩
      else
        ⟨p2, [.unlockEv], some .assertFailed⟩
    else
      ⟨p1, [], none⟩

/-- Construct `n` FileLockAccess objects in sequence against the same
record, stopping at the first thrown exception; accumulates the OS-lock
events. -/
def FileLockSingleton.addRefs (env : AcquireEnv) :
    Nat → FileLockSingleton → HookOutcome
  | 0, p => ⟨p, [], none⟩
  | n + 1, p =>
    let o := FileLockSingleton.addRefs env n p
    match o.err with
    | some e => ⟨o.state, o.events, some e⟩
    | none =>
      let o2 := FileLockSingleton.intrusive_ptr_add_ref env o.state
      ⟨o2.state, o.events ++ o2.events, o2.err⟩

/-- Destroy `n` FileLockAccess objects in sequence, stopping at the
first fatal assertion; accumulates the OS-lock events. -/
def FileLockSingleton.releaseN :
    Nat → FileLockSingleton → HookOutcome
  | 0, p => ⟨p, [], none⟩
  | n + 1, p =>
    let o := FileLockSingleton.releaseN n p
    match o.err with
    | some e => ⟨o.state, o.events, some e⟩
    | none =>
      let o2 := FileLockSingleton.intrusive_ptr_release o.state
      ⟨o2.state, o.events ++ o2.events, o2.err⟩

/-- The record state while held by `k` FileLockAccess objects after a
clean first acquisition whose stored pid differed from ours: OS lock
held, diagnostic handle retained. -/
def FileLockSingleton.lockedState (path : String) (k : Nat) :
    FileLockSingleton :=
  ⟨(k : Int), true, path, true⟩

/-! ### FileLock and the registry `s_file_lock_map`

The registry is a `std::set` of records ordered by canonical path;
since there is exactly one record per canonical path we identify a
record by that path and model the registry as the sorted list of those
paths.  A `FileLock` handle's `m_file_lock_instance` is `some path`
when bound to the record of that canonical path.  The
filesystem-equivalence test `boost::filesystem::equivalent` and the
normalisation `absolute(filename).lexically_normal()` are external
filesystem operations and are taken as oracle parameters. -/

/-- Insert a path into the ordered `std::set` of canonical paths,
keeping the (strict string) order the set iterates in. -/
def insertSorted (x : String) : List String → List String
  | [] => [x]
  | y :: ys => if x < y then x :: y :: ys else y :: insertSorted x ys

/-- Result of `FileLock::set_filename`: the exception thrown if any,
the handle's `m_file_lock_instance` afterwards, and the registry
afterwards. -/
structure BindOutcome where
  err : Option LockError
  handle : Option String
  registry : List String
deriving DecidableEq, Repr

/-- `FileLock::set_filename(filename)` (src/FileLock.cxx lines 6-51).
`ASSERT(!filename.empty())`; normalise; under the registry mutex
`ASSERT(!m_file_lock_instance)`, scan the set in iteration order and
bind to the first record whose stored canonical path the filesystem
reports equivalent to the normalised path (transient `error_code`
failures from `equivalent` are treated as not-equivalent and only
logged, which the `equiv` oracle returning `false` covers); otherwise
emplace a new record under the normalised path,
`ASSERT(res.second)` (the emplace found no string-equal entry). -/
def FileLock.set_filename (equiv : String → String → Bool)
    (normalize : String → String) (handle : Option String)
    (registry : List String) (filename : String) : BindOutcome :=
  if filename = "" then ⟨some .assertFailed, handle, registry⟩
  else
    let normal_path := normalize filename
    if handle.isSome then ⟨some .assertFailed, handle, registry⟩
    else
      match registry.find? (fun c => equiv c normal_path) with
      | some c => ⟨none, some c, registry⟩
      | none =>
        if normal_path ∈ registry then ⟨some .assertFailed, handle, registry⟩
        else ⟨none, some normal_path, insertSorted normal_path registry⟩

/-- What `FileLock::~FileLock` (src/FileLock.cxx lines 53-67) does to
the registry entry of the destroyed handle. -/
inductive DtorAction where
  | noop : DtorAction
  | retained : DtorAction
  | erased : DtorAction
  | fatal : DtorAction
deriving DecidableEq, Repr

/-- `FileLock::~FileLock` for a handle whose `shared_ptr` use count of
the bound record is `use_count` (the copy stored in the set plus every
bound handle) while the record has `n_access` outstanding
`FileLockAccess` objects: unbound handles return immediately; when this
handle and the set's copy are the only references (`use_count == 2`),
`ASSERT(m_number_of_FileLockAccess_objects == 0)` and erase; otherwise
the entry is retained. -/
def FileLock.dtor (bound : Bool) (use_count : Int) (n_access : Int) :
    DtorAction :=
  if !bound then .noop
  else if use_count = 2 then
    (if n_access = 0 then .erased else .fatal)
  else .retained

/-! ### Interleavings of handle and token lifetime (for the registry
erasure invariant)

A small operational model of one canonical path's record: the number of
bound `FileLock` handles, whether the record is present in
`s_file_lock_map`, and the `FileLockAccess` count.  Token construction
is abstracted to the counter bump of a successful
`intrusive_ptr_add_ref` (the OS-level side effects are modelled above
and are irrelevant to registry erasure). -/

/-- State of one record under interleaved handle/token operations. -/
structure SysState where
  present : Bool
  handles : Int
  tokens : Int
deriving DecidableEq, Repr

/-- Before any handle is bound. -/
def SysState.start : SysState := ⟨false, 0, 0⟩

/-- An operation of the interleaving: bind a `FileLock` handle to the
path, destroy a bound handle, construct a `FileLockAccess` token from a
bound handle, destroy a token. -/
inductive Op where
  | bindHandle : Op
  | destroyHandle : Op
  | createToken : Op
  | destroyToken : Op
deriving DecidableEq, Repr

/-- Registry-visible events of a step. -/
inductive SysEvent where
  | erasedRecord : SysEvent
  | fatalAssert : SysEvent
deriving DecidableEq, Repr

/-- One step of the interleaving model.  `destroyHandle` of the last
bound handle follows `FileLock::~FileLock`: the `shared_ptr` use count
is `handles + 1` (the set's copy), so `use_count == 2` iff this is the
only bound handle, and then the destructor asserts `tokens == 0` before
erasing.  Token construction without a bound, present record is the
`ASSERT(m_file_lock_instance)` of `FileLock::get_instance`; destroying
a token that does not exist is the `ASSERT(count > 0)` of
`intrusive_ptr_release`. -/
def SysState.step (s : SysState) : Op → SysState × Option SysEvent
  | .bindHandle =>
    if s.present then ({ s with handles := s.handles + 1 }, none)
    else ({ present := true, handles := 1, tokens := s.tokens }, none)
  | .destroyHandle =>
    if s.handles ≤ 0 then (s, none)
    else if s.handles = 1 then
      (if s.tokens = 0 then
        ({ present := false, handles := 0, tokens := 0 }, some .erasedRecord)
      else (s, some .fatalAssert))
    else ({ s with handles := s.handles - 1 }, none)
  | .createToken =>
    if s.present && s.handles > 0 then
      ({ s with tokens := s.tokens + 1 }, none)
    else (s, some .fatalAssert)
  | .destroyToken =>
    if s.tokens > 0 then ({ s with tokens := s.tokens - 1 }, none)
    else (s, some .fatalAssert)

/-- One entry of an interleaving trace: the state the operation was
applied to, the operation, and the event it produced. -/
structure TraceEntry where
  pre : SysState
  op : Op
  ev : Option SysEvent
deriving DecidableEq, Repr

/-- The trace of an interleaving: the pre-state, operation and event of
every step. -/
def SysState.runTrace (s : SysState) : List Op → List TraceEntry
  | [] => []
  | op :: ops =>
    let r := s.step op
    ⟨s, op, r.2⟩ :: SysState.runTrace r.1 ops

/-! ### The lock task state machines -/

/-- Calls a task's `multiplex_impl` makes into the `AIStatefulTask`
base (the suspend/finish contract with the external scheduler). -/
inductive TaskCall where
  | set_state_call : Nat → TaskCall
  | wait_call : Nat → TaskCall
  | finish_call : TaskCall
deriving DecidableEq, Repr

/-- `AIStatefulTaskLockTask::multiplex_impl` in the
`AIStatefulTaskLockTask_trylock` state (src/FileLock.cxx lines
213-230), given the result of the single
`m_stateful_task_lock_access.try_lock(this)` attempt the loop makes:
`while (!(lock_obtained = try_lock(this))) { break; }` evaluates
`try_lock` once and breaks out unconditionally on failure (the
`wait_until` call is commented out as FIXME), then `finish()` runs only
when the lock was obtained.  Returns the calls made into the task
base. -/
def AIStatefulTaskLockTask.multiplex_impl (try_lock_result : Bool) :
    List TaskCall :=
  let lock_obtained := try_lock_result
  if lock_obtained then [.finish_call] else []

/-- The `TaskLock_lock` state number of `task::TaskLock`. -/
def TaskLock_lock : Nat := 0

/-- The `TaskLock_locked` state number of `task::TaskLock`. -/
def TaskLock_locked : Nat := 1

/-- `task::TaskLock::multiplex_impl` (the `TaskLock.cxx` translation
unit appended to src/FileLock.h, lines 461-477), given the state it
runs in and the result of `lock(1)`: in `TaskLock_lock` it first calls
`set_state(TaskLock_locked)`, then on lock failure calls `wait(1)` and
breaks; on success it falls through to `TaskLock_locked`, which calls
`finish()`. -/
def TaskLock.multiplex_impl (run_state : Nat) (lock_result : Bool) :
    List TaskCall :=
  if run_state = TaskLock_lock then
    if lock_result then [.set_state_call TaskLock_locked, .finish_call]
    else [.set_state_call TaskLock_locked, .wait_call 1]
  else if run_state = TaskLock_locked then [.finish_call]
  else []

/-! ## Theorems -/

/-- C10: a named mutex that holds the ownership claim with claim
reference count 1 returns `false` from any subsequent `try_lock` on the
same mutex object, and the assignment of the null result overwrites the
stored claim reference, releasing the held claim: afterwards
`is_locked()` is `false`, the ownership record has no owner and zero
references, and a later `unlock` by the original owner fails its
assertion. -/
theorem try_lock_while_held_releases_claim (A X : TaskId) (d : STLData)
    (h1 : d.m_ref_count = 1) (h2 : d.m_owner = some A) :
    AIStatefulTaskNamedMutex.try_lock ⟨true⟩ X d =
      (false, ⟨false⟩, (⟨0, none⟩ : STLData)) ∧
    AIStatefulTaskNamedMutex.is_locked ⟨false⟩ = false ∧
    AIStatefulTaskNamedMutex.unlock ⟨false⟩ A (⟨0, none⟩ : STLData) =
      .error .assertFailed := by
  refine ⟨?_, rfl, rfl⟩
  simp [AIStatefulTaskNamedMutex.try_lock, STLData.try_lock,
    STLData.intrusive_ptr_release, h1]

theorem try_lock_while_held_releases_claim_witness :
    (⟨1, some 5⟩ : STLData).m_ref_count = 1 ∧
    (⟨1, some 5⟩ : STLData).m_owner = some 5 ∧
    (AIStatefulTaskNamedMutex.try_lock ⟨true⟩ 7 ⟨1, some 5⟩ =
        (false, ⟨false⟩, (⟨0, none⟩ : STLData)) ∧
      AIStatefulTaskNamedMutex.is_locked ⟨false⟩ = false ∧
      AIStatefulTaskNamedMutex.unlock ⟨false⟩ 5 (⟨0, none⟩ : STLData) =
        .error .assertFailed) :=
  ⟨rfl, rfl, try_lock_while_held_releases_claim 5 7 ⟨1, some 5⟩ rfl rfl⟩

/-- C1 counterexample: with owner identities A = 1 and B = 2 against one
and the same `AIStatefulTaskNamedMutex` object, A's `try_lock` succeeds
and B's subsequent `try_lock` on that object returns `false` — but A
does not remain the owner: the overwrite of the stored claim reference
releases the claim (the owner becomes null), and A's subsequent
`unlock` is a fatal assertion failure rather than a normal release, so
the claim as stated is false on the code. -/
theorem try_lock_same_mutex_object_drops_owner_cex :
    (AIStatefulTaskNamedMutex.try_lock .init 1 .init).1 = true ∧
    ((AIStatefulTaskNamedMutex.try_lock .init 1 .init).2.1.try_lock 2
      (AIStatefulTaskNamedMutex.try_lock .init 1 .init).2.2).1 = false ∧
    ¬ (((AIStatefulTaskNamedMutex.try_lock .init 1 .init).2.1.try_lock 2
      (AIStatefulTaskNamedMutex.try_lock .init 1 .init).2.2).2.2.m_owner
        = some 1) ∧
    (((AIStatefulTaskNamedMutex.try_lock .init 1 .init).2.1.try_lock 2
      (AIStatefulTaskNamedMutex.try_lock .init 1 .init).2.2).2.1.unlock 1
        ((AIStatefulTaskNamedMutex.try_lock .init 1 .init).2.1.try_lock 2
          (AIStatefulTaskNamedMutex.try_lock .init 1 .init).2.2).2.2) =
      .error .assertFailed := by
  decide

/-- C1 amended: for two distinct owner identities A and B, each holding
its own `AIStatefulTaskNamedMutex` view of the same ownership record
(the shared `AIStatefulTaskLockSingleton`), if A's `try_lock` succeeds
then B's `try_lock` on its view returns `false`, leaves the record
unchanged with A still the owner, and after A's `unlock` a subsequent
`try_lock` by B succeeds. -/
theorem named_mutex_mutual_exclusion_distinct_views (A B : TaskId)
    (hAB : A ≠ B) :
    AIStatefulTaskNamedMutex.try_lock .init A .init =
      (true, ⟨true⟩, (⟨1, some A⟩ : STLData)) ∧
    AIStatefulTaskNamedMutex.try_lock .init B ⟨1, some A⟩ =
      (false, ⟨false⟩, (⟨1, some A⟩ : STLData)) ∧
    (⟨1, some A⟩ : STLData).m_owner = some A ∧
    AIStatefulTaskNamedMutex.unlock ⟨true⟩ A ⟨1, some A⟩ =
      .ok (⟨false⟩, (⟨0, none⟩ : STLData)) ∧
    (AIStatefulTaskNamedMutex.try_lock .init B (⟨0, none⟩ : STLData)).1 =
      true := by
  refine ⟨?_, ?_, rfl, ?_, rfl⟩
  · simp [AIStatefulTaskNamedMutex.try_lock, STLData.try_lock,
      AIStatefulTaskNamedMutex.init, STLData.init]
  · simp [AIStatefulTaskNamedMutex.try_lock, STLData.try_lock,
      AIStatefulTaskNamedMutex.init]
  · simp [AIStatefulTaskNamedMutex.unlock, AIStatefulTaskNamedMutex.is_locked,
      STLData.is_owner, STLData.intrusive_ptr_release]

theorem named_mutex_mutual_exclusion_distinct_views_witness :
    (1 : TaskId) ≠ 2 ∧
    (AIStatefulTaskNamedMutex.try_lock .init 1 .init =
        (true, ⟨true⟩, (⟨1, some 1⟩ : STLData)) ∧
      AIStatefulTaskNamedMutex.try_lock .init 2 ⟨1, some 1⟩ =
        (false, ⟨false⟩, (⟨1, some 1⟩ : STLData)) ∧
      (⟨1, some 1⟩ : STLData).m_owner = some 1 ∧
      AIStatefulTaskNamedMutex.unlock ⟨true⟩ 1 ⟨1, some 1⟩ =
        .ok (⟨false⟩, (⟨0, none⟩ : STLData)) ∧
      (AIStatefulTaskNamedMutex.try_lock .init 2 (⟨0, none⟩ : STLData)).1 =
        true) :=
  ⟨by decide, named_mutex_mutual_exclusion_distinct_views 1 2 (by decide)⟩

/-- C8: `unlock` invoked with a caller identity that is not the current
owner of the claim fails the assertion
`ASSERT(is_locked() && m_stateful_task_lock_ref->is_owner(owner))` — a
fatal error; it is never a normal return and never clears or transfers
the claim. -/
theorem unlock_by_non_owner_fatal (m : AIStatefulTaskNamedMutex)
    (d : STLData) (caller : TaskId) (hlock : m.is_locked = true)
    (hown : d.m_owner ≠ some caller) :
    m.unlock caller d = .error .assertFailed := by
  simp [AIStatefulTaskNamedMutex.unlock, STLData.is_owner, hown]

theorem unlock_by_non_owner_fatal_witness :
    (AIStatefulTaskNamedMutex.is_locked ⟨true⟩ = true) ∧
    ((⟨1, some 3⟩ : STLData).m_owner ≠ some 4) ∧
    AIStatefulTaskNamedMutex.unlock ⟨true⟩ 4 ⟨1, some 3⟩ =
      .error .assertFailed :=
  ⟨rfl, by decide,
    unlock_by_non_owner_fatal ⟨true⟩ ⟨1, some 3⟩ 4 rfl (by decide)⟩

/-- C9: binding with an empty input path fails immediately on
`ASSERT(!filename.empty())` — the fatal caller error the specification
calls `PathError` — and both the handle's `m_file_lock_instance` and
the registry are left unchanged. -/
theorem set_filename_empty_path_fails_unchanged
    (equiv : String → String → Bool) (normalize : String → String)
    (handle : Option String) (registry : List String) :
    FileLock.set_filename equiv normalize handle registry "" =
      ⟨some .assertFailed, handle, registry⟩ := by
  simp [FileLock.set_filename]

/-- C7: evaluation of the lock-task state machines at the failing input
(the named mutex's `try_lock` returns `false`).
`AIStatefulTaskLockTask::multiplex_impl` then makes no call at all into
the task base — in particular no `wait` call, so the task never
registers a wakeup or retry (the `wait_until` call is commented out as
FIXME) — while on success it calls `finish()`.  The `task::TaskLock`
variant does call `wait(1)` on failure, but it has already set the next
state to `TaskLock_locked`, so on resume it finishes without
re-entering the locking state. -/
theorem lock_task_single_attempt_no_wait :
    AIStatefulTaskLockTask.multiplex_impl false = [] ∧
    AIStatefulTaskLockTask.multiplex_impl true = [.finish_call] ∧
    TaskLock.multiplex_impl TaskLock_lock false =
      [.set_state_call TaskLock_locked, .wait_call 1] ∧
    TaskLock.multiplex_impl TaskLock_locked true = [.finish_call] := by
  decide

/-- C4: evaluation at the failing input.  When the pid already stored in
the backing file equals the current process's pid (`fread` returns
`getpid()`), the 0→1 acquisition succeeds but does not retain the
opened handle in `m_lock_file`; the subsequent 1→0 release performs the
OS unlock and then fails `ASSERT(p->m_lock_file)` instead of executing
fully, contradicting the claim (and the release code's own
assertion). -/
theorem release_after_self_pid_acquire_hits_assert :
    (FileLockSingleton.intrusive_ptr_add_ref ⟨true, true, some 42, 42⟩
        (FileLockSingleton.mkRecord "lockfile")).err = none ∧
    (FileLockSingleton.intrusive_ptr_add_ref ⟨true, true, some 42, 42⟩
        (FileLockSingleton.mkRecord "lockfile")).state =
      ⟨1, true, "lockfile", false⟩ ∧
    (FileLockSingleton.intrusive_ptr_release
        (⟨1, true, "lockfile", false⟩ : FileLockSingleton)).events =
      [.unlockEv] ∧
    (FileLockSingleton.intrusive_ptr_release
        (⟨1, true, "lockfile", false⟩ : FileLockSingleton)).err =
      some .assertFailed := by
  decide

/-- C3: a first `FileLockAccess` acquisition (count 0) whose
non-blocking OS `try_lock` fails rolls the access count back to 0,
reads the previously recorded holder pid best-effort from the backing
file, and throws `lockUnavailable` carrying the canonical path and —
when a (non-zero) holder pid was readable — that identity; the record
retains no partial state (`m_lock_file` unchanged, the OS lock not
held) and exactly one `try_lock` attempt is made, with no retry and no
blocking call. -/
theorem first_access_failure_rolls_back_and_reports (env : AcquireEnv)
    (p : FileLockSingleton)
    (h0 : p.m_number_of_FileLockAccess_objects = 0)
    (hfail : env.try_lock_result = false) :
    FileLockSingleton.intrusive_ptr_add_ref env p =
      ⟨{ p with
          m_number_of_FileLockAccess_objects := 0
          m_file_lock_held := false },
        [.tryLockEv],
        some (.lockUnavailable p.m_canonical_path
          (if env.lastpid ≠ 0 then some env.lastpid else none))⟩ := by
  simp [FileLockSingleton.intrusive_ptr_add_ref, h0, hfail]

theorem first_access_failure_rolls_back_and_reports_witness :
    (FileLockSingleton.mkRecord "p").m_number_of_FileLockAccess_objects
      = 0 ∧
    (⟨false, true, some 7, 42⟩ : AcquireEnv).try_lock_result = false ∧
    FileLockSingleton.intrusive_ptr_add_ref ⟨false, true, some 7, 42⟩
        (FileLockSingleton.mkRecord "p") =
      ⟨{ FileLockSingleton.mkRecord "p" with
          m_number_of_FileLockAccess_objects := 0
          m_file_lock_held := false },
        [.tryLockEv],
        some (.lockUnavailable
          (FileLockSingleton.mkRecord "p").m_canonical_path
          (if (⟨false, true, some 7, 42⟩ : AcquireEnv).lastpid ≠ 0 then
            some (⟨false, true, some 7, 42⟩ : AcquireEnv).lastpid
          else none))⟩ :=
  ⟨rfl, rfl,
    first_access_failure_rolls_back_and_reports ⟨false, true, some 7, 42⟩
      (FileLockSingleton.mkRecord "p") rfl rfl⟩

/-- C6: two path strings that the filesystem-equivalence test resolves
to the same inode bind to the identical lock record (there is exactly
one `FileLockSingleton` per canonical path, so the record is identified
by it), and the record keeps the canonical path of the first binding:
binding `p1` into an empty registry creates the record under
`normalize p1`, and binding `p2` — reported equivalent by the
filesystem — finds that record, leaving the registry unchanged. -/
theorem equivalent_paths_bind_same_record
    (equiv : String → String → Bool) (normalize : String → String)
    (p1 p2 : String) (h1 : p1 ≠ "") (h2 : p2 ≠ "")
    (heq : equiv (normalize p1) (normalize p2) = true) :
    FileLock.set_filename equiv normalize none [] p1 =
      ⟨none, some (normalize p1), [normalize p1]⟩ ∧
    FileLock.set_filename equiv normalize none [normalize p1] p2 =
      ⟨none, some (normalize p1), [normalize p1]⟩ := by
  constructor
  · simp [FileLock.set_filename, h1, insertSorted]
  · simp [FileLock.set_filename, h2, List.find?, heq]

theorem equivalent_paths_bind_same_record_witness :
    ("a" : String) ≠ "" ∧ ("b" : String) ≠ "" ∧
    (fun _ _ => true : String → String → Bool)
      ((fun s => s) "a") ((fun s => s) "b") = true ∧
    (FileLock.set_filename (fun _ _ => true) (fun s => s) none [] "a" =
        ⟨none, some ((fun s => s) "a"), [(fun s => s) "a"]⟩ ∧
      FileLock.set_filename (fun _ _ => true) (fun s => s) none
          [(fun s => s) "a"] "b" =
        ⟨none, some ((fun s => s) "a"), [(fun s => s) "a"]⟩) :=
  ⟨by decide, by decide, rfl,
    equivalent_paths_bind_same_record (fun _ _ => true) (fun s => s)
      "a" "b" (by decide) (by decide) rfl⟩

/-- Per-step form of the registry invariant: a step only reports the
record erased when the pre-state had no outstanding token, and
destroying the last bound handle while tokens are outstanding is the
fatal assertion of `FileLock::~FileLock`. -/
theorem step_erase_characterisation (s : SysState) (op : Op) :
    ((s.step op).2 = some .erasedRecord → s.tokens = 0) ∧
    (op = .destroyHandle → s.handles = 1 → 0 < s.tokens →
      (s.step op).2 = some .fatalAssert) := by
  cases op <;>
    simp only [SysState.step] <;>
    constructor <;>
    intro h <;>
    first
      | (split_ifs at h <;> simp_all)
      | (intro h1 h2
         split_ifs <;> simp_all)

/-- C5: along every interleaving of handle binding/destruction and
token construction/destruction, the lock record is never erased from
the registry while its access count is positive: every trace entry
reporting `erasedRecord` had zero outstanding tokens in its pre-state,
and a destruction of the last bound handle with outstanding tokens is a
fatal assertion, never a silent erase. -/
theorem record_never_erased_while_accessed (ops : List Op)
    (s₀ : SysState) (e : TraceEntry)
    (he : e ∈ SysState.runTrace s₀ ops) :
    (e.ev = some .erasedRecord → e.pre.tokens = 0) ∧
    (e.op = .destroyHandle → e.pre.handles = 1 → 0 < e.pre.tokens →
      e.ev = some .fatalAssert) := by
  induction ops generalizing s₀ with
  | nil => simp [SysState.runTrace] at he
  | cons op ops ih =>
    rw [SysState.runTrace] at he
    rcases List.mem_cons.mp he with he | he
    · subst he
      exact step_erase_characterisation s₀ op
    · exact ih _ he

theorem record_never_erased_while_accessed_witness :
    (⟨⟨true, 1, 0⟩, .destroyHandle, some .erasedRecord⟩ : TraceEntry) ∈
      SysState.runTrace SysState.start
        [.bindHandle, .createToken, .destroyToken, .destroyHandle] ∧
    (((⟨⟨true, 1, 0⟩, .destroyHandle, some .erasedRecord⟩ :
        TraceEntry).ev = some .erasedRecord →
      (⟨⟨true, 1, 0⟩, .destroyHandle, some .erasedRecord⟩ :
        TraceEntry).pre.tokens = 0) ∧
    ((⟨⟨true, 1, 0⟩, .destroyHandle, some .erasedRecord⟩ :
        TraceEntry).op = .destroyHandle →
      (⟨⟨true, 1, 0⟩, .destroyHandle, some .erasedRecord⟩ :
        TraceEntry).pre.handles = 1 →
      0 < (⟨⟨true, 1, 0⟩, .destroyHandle, some .erasedRecord⟩ :
        TraceEntry).pre.tokens →
      (⟨⟨true, 1, 0⟩, .destroyHandle, some .erasedRecord⟩ :
        TraceEntry).ev = some .fatalAssert)) :=
  ⟨by decide,
    record_never_erased_while_accessed
      [.bindHandle, .createToken, .destroyToken, .destroyHandle]
      SysState.start _ (by decide)⟩

/-- The first acquisition in a clean environment (OS `try_lock`
succeeds, the file opens, the stored pid differs from ours) succeeds
with one OS `try_lock` call and retains the diagnostic handle. -/
theorem add_ref_first_success (env : AcquireEnv) (path : String)
    (htl : env.try_lock_result = true) (hfo : env.fopen_ok = true)
    (hpid : env.lastpid ≠ env.getpid) :
    FileLockSingleton.intrusive_ptr_add_ref env
        (FileLockSingleton.mkRecord path) =
      ⟨FileLockSingleton.lockedState path 1, [.tryLockEv], none⟩ := by
  simp [FileLockSingleton.intrusive_ptr_add_ref,
    FileLockSingleton.mkRecord, FileLockSingleton.lockedState, htl, hfo,
    hpid]

/-- An acquisition while the record is already held is a pure counter
bump: no OS call, no error. -/
theorem add_ref_on_held (env : AcquireEnv) (p : FileLockSingleton)
    (h : 0 < p.m_number_of_FileLockAccess_objects) :
    FileLockSingleton.intrusive_ptr_add_ref env p =
      ⟨{ p with m_number_of_FileLockAccess_objects :=
          p.m_number_of_FileLockAccess_objects + 1 }, [], none⟩ := by
  have h0 : p.m_number_of_FileLockAccess_objects ≠ 0 := by omega
  simp [FileLockSingleton.intrusive_ptr_add_ref, h0]

/-- A release that leaves the count positive is a pure counter bump:
no OS call, no error. -/
theorem release_on_multi (p : FileLockSingleton)
    (h : 1 < p.m_number_of_FileLockAccess_objects) :
    FileLockSingleton.intrusive_ptr_release p =
      ⟨{ p with m_number_of_FileLockAccess_objects :=
          p.m_number_of_FileLockAccess_objects - 1 }, [], none⟩ := by
  have h1 : 0 < p.m_number_of_FileLockAccess_objects := by omega
  have h2 : ¬(p.m_number_of_FileLockAccess_objects - 1 = 0) := by omega
  simp [FileLockSingleton.intrusive_ptr_release, h1, h2]

/-- The last release from a cleanly held record unlocks the OS lock
and closes the diagnostic handle. -/
theorem release_last (path : String) :
    FileLockSingleton.intrusive_ptr_release
        (FileLockSingleton.lockedState path 1) =
      ⟨⟨0, false, path, false⟩, [.unlockEv], none⟩ := by
  simp [FileLockSingleton.intrusive_ptr_release,
    FileLockSingleton.lockedState]

/-- Constructing `k + 1` access tokens from the fresh record in a clean
environment makes exactly one OS `try_lock` call (at the 0→1
transition) and reaches the held state with count `k + 1`. -/
theorem addRefs_locked (env : AcquireEnv) (path : String)
    (htl : env.try_lock_result = true) (hfo : env.fopen_ok = true)
    (hpid : env.lastpid ≠ env.getpid) :
    ∀ k : Nat,
      FileLockSingleton.addRefs env (k + 1)
          (FileLockSingleton.mkRecord path) =
        ⟨FileLockSingleton.lockedState path (k + 1), [.tryLockEv],
          none⟩ := by
  intro k
  induction k with
  | zero =>
    simp [FileLockSingleton.addRefs,
      add_ref_first_success env path htl hfo hpid]
  | succ k ih =>
    have hpos :
        0 < (FileLockSingleton.lockedState path
          (k + 1)).m_number_of_FileLockAccess_objects := by
      simp [FileLockSingleton.lockedState]
    rw [FileLockSingleton.addRefs, ih]
    dsimp only
    rw [add_ref_on_held env _ hpos]
    simp [FileLockSingleton.lockedState]
    try omega

/-- Destroying `j` of the tokens of a record held `j + k + 1` times is
pure counting: no OS call, count `k + 1` remains. -/
theorem releaseN_partial (path : String) :
    ∀ j k : Nat,
      FileLockSingleton.releaseN j
          (FileLockSingleton.lockedState path (j + k + 1)) =
        ⟨FileLockSingleton.lockedState path (k + 1), [], none⟩ := by
  intro j
  induction j with
  | zero => intro k; simp [FileLockSingleton.releaseN]
  | succ j ih =>
    intro k
    rw [FileLockSingleton.releaseN]
    have harg : j + 1 + k + 1 = j + (k + 1) + 1 := by omega
    rw [harg, ih (k + 1)]
    have hgt :
        1 < (FileLockSingleton.lockedState path
          (k + 1 + 1)).m_number_of_FileLockAccess_objects := by
      simp [FileLockSingleton.lockedState]
    dsimp only
    rw [release_on_multi _ hgt]
    simp [FileLockSingleton.lockedState]
    try omega

/-- Destroying all `N + 1` tokens of a record held `N + 1` times makes
exactly one OS `unlock` call (at the 1→0 transition) and fully resets
the record. -/
theorem releaseN_all (path : String) :
    ∀ N : Nat,
      FileLockSingleton.releaseN (N + 1)
          (FileLockSingleton.lockedState path (N + 1)) =
        ⟨⟨0, false, path, false⟩, [.unlockEv], none⟩ := by
  intro N
  rw [FileLockSingleton.releaseN]
  have harg : N + 1 = N + 0 + 1 := by omega
  rw [harg, releaseN_partial path N 0, release_last path]
  simp

/-- C2: constructing `N ≥ 1` access tokens against the same lock record
in a clean environment and then destroying all `N` performs exactly one
OS-lock acquire — at the 0→1 transition, i.e. already during the first
construction — and exactly one OS-lock release — at the 1→0
transition, i.e. only at the last destruction — with the access count
stepping 0,1,…,N and then N,…,0, and no error anywhere. -/
theorem n_tokens_one_os_acquire_one_release (env : AcquireEnv)
    (path : String) (N : Nat) (hN : 1 ≤ N)
    (htl : env.try_lock_result = true) (hfo : env.fopen_ok = true)
    (hpid : env.lastpid ≠ env.getpid) :
    (FileLockSingleton.addRefs env N
      (FileLockSingleton.mkRecord path)).err = none ∧
    (FileLockSingleton.addRefs env N
      (FileLockSingleton.mkRecord path)).events = [.tryLockEv] ∧
    (FileLockSingleton.addRefs env 1
      (FileLockSingleton.mkRecord path)).events = [.tryLockEv] ∧
    (FileLockSingleton.releaseN N
      (FileLockSingleton.addRefs env N
        (FileLockSingleton.mkRecord path)).state).err = none ∧
    (FileLockSingleton.releaseN N
      (FileLockSingleton.addRefs env N
        (FileLockSingleton.mkRecord path)).state).events = [.unlockEv] ∧
    (FileLockSingleton.releaseN (N - 1)
      (FileLockSingleton.addRefs env N
        (FileLockSingleton.mkRecord path)).state).events = [] ∧
    (List.range (N + 1)).map (fun k =>
        FileLockSingleton.addRefs env k (FileLockSingleton.mkRecord path)
          |>.state.m_number_of_FileLockAccess_objects) =
      (List.range (N + 1)).map (fun (k : Nat) => (k : Int)) ∧
    (List.range (N + 1)).map (fun j =>
        FileLockSingleton.releaseN j
          (FileLockSingleton.addRefs env N
            (FileLockSingleton.mkRecord path)).state
          |>.state.m_number_of_FileLockAccess_objects) =
      (List.range (N + 1)).map (fun (j : Nat) => (N : Int) - (j : Int)) := by
  obtain ⟨M, rfl⟩ : ∃ M, N = M + 1 := ⟨N - 1, by omega⟩
  have hacq := addRefs_locked env path htl hfo hpid M
  refine ⟨?_, ?_, ?_, ?_, ?_, ?_, ?_, ?_⟩
  · rw [hacq]
  · rw [hacq]
  · rw [addRefs_locked env path htl hfo hpid 0]
  · rw [hacq]
    rw [show (⟨FileLockSingleton.lockedState path (M + 1), [.tryLockEv],
      none⟩ : HookOutcome).state = FileLockSingleton.lockedState path
        (M + 1) from rfl]
    rw [releaseN_all path M]
  · rw [hacq]
    rw [show (⟨FileLockSingleton.lockedState path (M + 1), [.tryLockEv],
      none⟩ : HookOutcome).state = FileLockSingleton.lockedState path
        (M + 1) from rfl]
    rw [releaseN_all path M]
  · rw [hacq]
    rw [show (⟨FileLockSingleton.lockedState path (M + 1), [.tryLockEv],
      none⟩ : HookOutcome).state = FileLockSingleton.lockedState path
        (M + 1) from rfl]
    have harg : M + 1 - 1 = M := by omega
    have harg2 : M + 1 = M + 0 + 1 := by omega
    rw [harg, harg2, releaseN_partial path M 0]
  · refine List.map_congr_left ?_
    intro k _
    cases k with
    | zero => simp [FileLockSingleton.addRefs, FileLockSingleton.mkRecord]
    | succ k' =>
      rw [addRefs_locked env path htl hfo hpid k']
      simp [FileLockSingleton.lockedState]
  · refine List.map_congr_left ?_
    intro j hj
    rw [hacq]
    rw [show (⟨FileLockSingleton.lockedState path (M + 1), [.tryLockEv],
      none⟩ : HookOutcome).state = FileLockSingleton.lockedState path
        (M + 1) from rfl]
    have hj' : j ≤ M + 1 := by
      have := List.mem_range.mp hj
      omega
    rcases Nat.lt_or_ge j (M + 1) with hlt | hge
    · obtain ⟨m, rfl⟩ : ∃ m, M = j + m := ⟨M - j, by omega⟩
      rw [show j + m + 1 = j + (m + 1) from by omega]
      rw [show FileLockSingleton.releaseN j
          (FileLockSingleton.lockedState path (j + (m + 1))) =
        ⟨FileLockSingleton.lockedState path (m + 1), [], none⟩ from by
          rw [show j + (m + 1) = j + m + 1 from by omega]
          exact releaseN_partial path j m]
      simp [FileLockSingleton.lockedState]
    · have hje : j = M + 1 := by omega
      subst hje
      rw [releaseN_all path M]
      simp

theorem n_tokens_one_os_acquire_one_release_witness :
    1 ≤ 2 ∧
    (⟨true, true, some 0, 42⟩ : AcquireEnv).try_lock_result = true ∧
    (⟨true, true, some 0, 42⟩ : AcquireEnv).fopen_ok = true ∧
    (⟨true, true, some 0, 42⟩ : AcquireEnv).lastpid ≠
      (⟨true, true, some 0, 42⟩ : AcquireEnv).getpid ∧
    ((FileLockSingleton.addRefs ⟨true, true, some 0, 42⟩ 2
        (FileLockSingleton.mkRecord "p")).err = none ∧
      (FileLockSingleton.addRefs ⟨true, true, some 0, 42⟩ 2
        (FileLockSingleton.mkRecord "p")).events = [.tryLockEv] ∧
      (FileLockSingleton.addRefs ⟨true, true, some 0, 42⟩ 1
        (FileLockSingleton.mkRecord "p")).events = [.tryLockEv] ∧
      (FileLockSingleton.releaseN 2
        (FileLockSingleton.addRefs ⟨true, true, some 0, 42⟩ 2
          (FileLockSingleton.mkRecord "p")).state).err = none ∧
      (FileLockSingleton.releaseN 2
        (FileLockSingleton.addRefs ⟨true, true, some 0, 42⟩ 2
          (FileLockSingleton.mkRecord "p")).state).events =
        [.unlockEv] ∧
      (FileLockSingleton.releaseN (2 - 1)
        (FileLockSingleton.addRefs ⟨true, true, some 0, 42⟩ 2
          (FileLockSingleton.mkRecord "p")).state).events = [] ∧
      (List.range (2 + 1)).map (fun k =>
          FileLockSingleton.addRefs ⟨true, true, some 0, 42⟩ k
            (FileLockSingleton.mkRecord "p")
            |>.state.m_number_of_FileLockAccess_objects) =
        (List.range (2 + 1)).map (fun (k : Nat) => (k : Int)) ∧
      (List.range (2 + 1)).map (fun j =>
          FileLockSingleton.releaseN j
            (FileLockSingleton.addRefs ⟨true, true, some 0, 42⟩ 2
              (FileLockSingleton.mkRecord "p")).state
            |>.state.m_number_of_FileLockAccess_objects) =
        (List.range (2 + 1)).map (fun (j : Nat) => ((2 : Nat) : Int) - (j : Int))) :=
  ⟨by decide, rfl, rfl, by decide,
    n_tokens_one_os_acquire_one_release ⟨true, true, some 0, 42⟩ "p" 2
      (by decide) rfl rfl (by decide)⟩

end FilelockTask
